import Mathlib

/-
  Shallow embedding of the email-agent workflow:
    - src/agent/tools.py   (send_email_func, the placeholder send_email tool)
    - src/agent/graph.py   (generate_draft, review_and_decide, tool_executor,
                            route_next_step, build_email_agent)
    - src/agent/state.py   (AgentState)
    - app.py               (initial state, dynamic tool construction)
  The language model is treated as an opaque collaborator: its two responses
  (draft text, review response) are inputs to the run function.  The SMTP
  transport is an oracle (SmtpBehavior) deciding how the network behaves once
  a connection is attempted.
-/

namespace EmailAgent

/-- Whitespace set of Python str.strip (space, tab, LF, CR, VT, FF). -/
def isPySpaceChar (c : Char) : Bool :=
  (c == ' ') || (c == '\t') || (c == '\n') || (c == '\r') ||
  (c == Char.ofNat 11) || (c == Char.ofNat 12)

/-- Models Python str.strip() on a character list. -/
def pyStripList (s : List Char) : List Char :=
  ((s.dropWhile isPySpaceChar).reverse.dropWhile isPySpaceChar).reverse

/-- Models Python str.strip(). -/
def pyStrip (s : String) : String := String.mk (pyStripList s.data)

/-- Models Python s.split(sep, 1): split at the first occurrence of sep,
returning the parts before and after it, or none when sep does not occur. -/
def pySplit1List (hay sep : List Char) : Option (List Char × List Char) :=
  if List.isPrefixOf sep hay then some ([], hay.drop sep.length)
  else
    match hay with
    | [] => none
    | c :: cs => (pySplit1List cs sep).map (fun p => (c :: p.1, p.2))

/-- String version of pySplit1List. -/
def pySplit1 (s sep : String) : Option (String × String) :=
  (pySplit1List s.data sep.data).map (fun p => (String.mk p.1, String.mk p.2))

/-- Models the Python membership test `sub in s` on strings. -/
def pyContains (s sub : String) : Bool :=
  (pySplit1List s.data sub.data).isSome

/-- Fuel-driven worker for pyReplaceList: each step consumes at least one
character of the text, so fuel = length of the text suffices; the
structural recursion on fuel keeps the definition kernel-reducible. -/
def pyReplaceListAux (fuel : Nat) (s old new : List Char) : List Char :=
  match fuel, s with
  | _, [] => []
  | 0, s => s
  | Nat.succ n, c :: cs =>
    if List.isPrefixOf old (c :: cs) ∧ old ≠ [] then
      new ++ pyReplaceListAux n ((c :: cs).drop old.length) old new
    else
      c :: pyReplaceListAux n cs old new

/-- Models Python s.replace(old, new): replace every non-overlapping
occurrence of old, scanning left to right. -/
def pyReplaceList (s old new : List Char) : List Char :=
  pyReplaceListAux s.length s old new

/-- String version of pyReplaceList. -/
def pyReplace (s old new : String) : String :=
  String.mk (pyReplaceList s.data old.data new.data)

/-- Models Python s[:n]. -/
def pyTake (s : String) (n : Nat) : String := String.mk (s.data.take n)

/-- A single quote character, as used in the SUCCESS message of
send_email_func. -/
def squote : String := String.mk [Char.ofNat 39]

/-- How the SMTP transport behaves once a connection is attempted:
the send succeeds, the server rejects authentication
(smtplib.SMTPAuthenticationError), or some other transport error is raised
with a message. -/
inductive SmtpBehavior where
  | sendOk : SmtpBehavior
  | authReject : SmtpBehavior
  | transportFail (msg : String) : SmtpBehavior
deriving Repr, DecidableEq

/-- Result of one call to send_email_func: the returned string, plus an
instrumentation flag recording whether the SMTP connection block
(`with smtplib.SMTP(host, port)`) was entered. -/
structure DispatchResult where
  result : String
  connectionAttempted : Bool
deriving Repr, DecidableEq

/-- Embeds send_email_func of src/agent/tools.py.  The two precondition
checks come first, in source order; only when both pass is the network
oracle consulted. -/
def send_email_func (recipient subject body username password : String)
    (host : String) (port : Nat) (net : SmtpBehavior) : DispatchResult :=
  if username = "" ∨ password = "" then
    { result := "ERROR: SMTP credentials missing. Cannot send email."
      connectionAttempted := false }
  else if pyContains recipient "@" = false then
    { result := "ERROR: Invalid recipient address format. Please check the recipient."
      connectionAttempted := false }
  else
    match net with
    | SmtpBehavior.sendOk =>
      { result := "SUCCESS: Email titled " ++ squote ++ subject ++ squote ++
                  " sent to " ++ recipient ++ "."
        connectionAttempted := true }
    | SmtpBehavior.authReject =>
      { result := "ERROR: SMTP Authentication failed. Check username and password."
        connectionAttempted := true }
    | SmtpBehavior.transportFail msg =>
      { result := "ERROR: Failed to send email via SMTP. Details: " ++ msg
        connectionAttempted := true }

/-- Embeds the placeholder @tool send_email of src/agent/tools.py, which
ignores its arguments and returns a fixed error string. -/
def send_email (recipient subject body : String) : String :=
  "ERROR: Tool called without dynamic credentials. Check app.py setup."

/-- A structured tool call carried on a model response
(LangChain tool_calls entry: a name and keyword arguments). -/
structure ToolCall where
  name : String
  args : List (String × String)
deriving Repr, DecidableEq

/-- A response from the language model: free text plus the (possibly empty)
list of structured tool calls. -/
structure ModelResponse where
  content : String
  tool_calls : List ToolCall
deriving Repr, DecidableEq

/-- One Run Log entry as produced by log_step of src/agent/graph.py. -/
structure LogEntry where
  node : String
  status : String
  details : String
deriving Repr, DecidableEq

/-- Embeds log_step of src/agent/graph.py. -/
def log_step (name status details : String) : LogEntry :=
  { node := name, status := status, details := details }

/-- Embeds AgentState of src/agent/state.py.  The messages channel keeps
only the AI messages the nodes append (add_messages appends; the nodes
inspect only content and tool_calls). -/
structure AgentState where
  goal : String
  recipient : String
  subject : String
  body : String
  review_feedback : String
  status : String
  logs : List LogEntry
  messages : List ModelResponse
deriving Repr, DecidableEq

/-- A tool as seen by tool_executor: a name, and an invoke function that
either returns the tool output string or raises (Except.error, carrying the
exception text). -/
structure ToolDef where
  name : String
  run : List (String × String) → Except String String

/-- Keyword-argument lookup, as StructuredTool.invoke receives a dict. -/
def lookupArg (args : List (String × String)) (key : String) : Option String :=
  (args.find? (fun p => p.1 == key)).map Prod.snd

/-- Embeds the dynamic send_email StructuredTool built in app.py run_agent:
it validates the three schema fields and closes over the user credentials,
calling send_email_func with host smtp.gmail.com and port 587. -/
def dynamic_send_email_tool (username password : String) (net : SmtpBehavior) :
    ToolDef :=
  { name := "send_email"
    run := fun args =>
      match lookupArg args "recipient", lookupArg args "subject",
            lookupArg args "body" with
      | some r, some s, some b =>
        Except.ok (send_email_func r s b username password "smtp.gmail.com" 587 net).result
      | _, _, _ => Except.error "ValidationError: missing required arguments" }

/-- The dynamic tools list app.py places into AGENT_CONFIG before a run. -/
def dynamic_tools (username password : String) (net : SmtpBehavior) :
    List ToolDef :=
  [dynamic_send_email_tool username password net]

/-- Embeds the static placeholder tool object for @tool send_email, with the
same three-field schema, invoking the placeholder function. -/
def static_send_email_tool : ToolDef :=
  { name := "send_email"
    run := fun args =>
      match lookupArg args "recipient", lookupArg args "subject",
            lookupArg args "body" with
      | some r, some s, some b => Except.ok (send_email r s b)
      | _, _, _ => Except.error "ValidationError: missing required arguments" }

/-- Embeds the module-level `tools` list of src/agent/tools.py. -/
def tools : List ToolDef := [static_send_email_tool]

/-- Embeds generate_draft of src/agent/graph.py, with the model's raw reply
text as input.  The reply is split once on the BODY delimiter; on success the
subject has every SUBJECT: occurrence removed and is stripped; on failure the
node absorbs the error, marking the subject and keeping the raw text as
body.  Exactly one log entry is appended either way, and one AI message. -/
def generate_draft (state : AgentState) (raw_content : String) : AgentState :=
  match pySplit1 raw_content "\nBODY:" with
  | some (subject_part, body_part) =>
    let subject := pyStrip (pyReplace subject_part "SUBJECT:" "")
    let body := pyStrip body_part
    let log := log_step "Draft_Creator" "Success"
      ("Subject drafted: " ++ pyTake subject 40 ++ "...")
    { state with
      subject := subject
      body := body
      logs := state.logs ++ [log]
      messages := state.messages ++
        [{ content := "Subject: " ++ subject ++ "\nBody: " ++ body, tool_calls := [] }] }
  | none =>
    let subject := "ERROR: Drafting Failed"
    let body := raw_content
    let log := log_step "Draft_Creator" "Error"
      "LLM response did not follow strict SUBJECT:/BODY: format."
    { state with
      subject := subject
      body := body
      logs := state.logs ++ [log]
      messages := state.messages ++
        [{ content := "Subject: " ++ subject ++ "\nBody: " ++ body, tool_calls := [] }] }

/-- Embeds review_and_decide of src/agent/graph.py, with the model's review
response as input: appends one Complete log entry, stores the response text
into review_feedback, and appends the response to the messages. -/
def review_and_decide (state : AgentState) (response : ModelResponse) :
    AgentState :=
  let log := log_step "Decision_Maker" "Complete"
    ("Decided to: " ++
      (if response.tool_calls.isEmpty then "Give Feedback" else "Call Tool"))
  { state with
    review_feedback := response.content
    messages := state.messages ++ [response]
    logs := state.logs ++ [log] }

/-- The tool_calls of the last message, as tool_executor reads them
(`state["messages"][-1].tool_calls if state["messages"] else None`;
an absent or empty list is falsy either way). -/
def lastToolCalls (state : AgentState) : List ToolCall :=
  match state.messages.getLast? with
  | some m => m.tool_calls
  | none => []

/-- Embeds tool_executor of src/agent/graph.py.  Check 1 (an explicit tool
call is present) looks the tool up by name and invokes it; an exception
there propagates out of the node (Except.error).  Check 2 (forced
execution) synthesizes the arguments from the state inside a try/except,
logging Forced_Success when the invocation returns and Forced_Error when it
raises. -/
def tool_executor (state : AgentState) (dynamicTools : List ToolDef) :
    Except String AgentState :=
  if dynamicTools.isEmpty then
    Except.error "Tools not configured in AGENT_CONFIG. Check app.py setup."
  else
    match lastToolCalls state with
    | tool_call :: _ =>
      match dynamicTools.find? (fun t => t.name == tool_call.name) with
      | none => Except.error "StopIteration"
      | some tool_to_run =>
        match tool_to_run.run tool_call.args with
        | Except.error e => Except.error e
        | Except.ok tool_result =>
          let log := log_step "Tool_Executor" "Complete"
            ("Tool output: " ++ tool_result)
          Except.ok { state with
            status := tool_result
            logs := state.logs ++ [log] }
    | [] =>
      match dynamicTools.find? (fun t => t.name == "send_email") with
      | none =>
        let log := log_step "Tool_Executor" "Forced_Error"
          "Manual tool execution failed. Check .env: StopIteration"
        Except.ok { state with
          status := "ERROR: Manual execution failed. Details: StopIteration"
          logs := state.logs ++ [log] }
      | some send_email_tool =>
        match send_email_tool.run
            [("recipient", state.recipient), ("subject", state.subject),
             ("body", state.body)] with
        | Except.ok tool_result =>
          let log := log_step "Tool_Executor" "Forced_Success"
            "Tool call was synthesized and executed."
          Except.ok { state with
            status := tool_result
            logs := state.logs ++ [log] }
        | Except.error e =>
          let log := log_step "Tool_Executor" "Forced_Error"
            ("Manual tool execution failed. Check .env: " ++ e)
          Except.ok { state with
            status := "ERROR: Manual execution failed. Details: " ++ e
            logs := state.logs ++ [log] }

/-- Embeds route_next_step of src/agent/graph.py: reading messages[-1]
raises IndexError on an empty list (Except.error); otherwise an explicit
tool call routes to tool_executor, else the REVISION: marker in
review_feedback routes to END_FEEDBACK, else the fail-safe routes to
tool_executor. -/
def route_next_step (state : AgentState) : Except String String :=
  match state.messages.getLast? with
  | none => Except.error "IndexError: list index out of range"
  | some m =>
    if m.tool_calls.isEmpty = false then Except.ok "tool_executor"
    else if pyContains state.review_feedback "REVISION:" then
      Except.ok "END_FEEDBACK"
    else Except.ok "tool_executor"

/-- The initial AgentState app.py builds before invoking the graph. -/
def initial_state (goal recipient : String) : AgentState :=
  { goal := goal
    recipient := recipient
    subject := ""
    body := ""
    review_feedback := ""
    status := ""
    logs := []
    messages := [] }

/-- Embeds one invocation of the compiled graph of build_email_agent:
draft_creator, then decision_maker, then the conditional edge of
route_next_step mapping tool_executor to the tool_executor node and
END_FEEDBACK to END. -/
def run_email_agent (goal recipient : String) (draft_raw : String)
    (review : ModelResponse) (dynamicTools : List ToolDef) :
    Except String AgentState :=
  let s1 := generate_draft (initial_state goal recipient) draft_raw
  let s2 := review_and_decide s1 review
  match route_next_step s2 with
  | Except.error e => Except.error e
  | Except.ok r =>
    if r = "tool_executor" then tool_executor s2 dynamicTools
    else if r = "END_FEEDBACK" then Except.ok s2
    else Except.error ("unknown route: " ++ r)

/-- The three routes of the Decision Policy as the spec names them. -/
inductive Route where
  | dispatchExplicit : Route
  | stopForRevision : Route
  | dispatchSynthesized : Route
deriving Repr, DecidableEq

/-- The Decision Policy route out of the Review step: route_next_step
composed with tool_executor Check 1, which decides whether the dispatch
arguments come from the explicit tool call or are synthesized. -/
def decision_route (state : AgentState) : Except String Route :=
  match route_next_step state with
  | Except.error e => Except.error e
  | Except.ok r =>
    if r = "END_FEEDBACK" then Except.ok Route.stopForRevision
    else
      match lastToolCalls state with
      | _ :: _ => Except.ok Route.dispatchExplicit
      | [] => Except.ok Route.dispatchSynthesized

/-! ### Helper lemmas -/

lemma append_ne_empty (a b : String) (ha : a ≠ "") : a ++ b ≠ "" := by
  intro he
  apply ha
  have hd := congrArg String.data he
  rw [String.data_append] at hd
  exact String.ext (List.append_eq_nil.mp hd).1

lemma send_email_func_result_ne_empty (recipient subject body username password host : String)
    (port : Nat) (net : SmtpBehavior) :
    (send_email_func recipient subject body username password host port net).result ≠ "" := by
  unfold send_email_func
  split
  · decide
  · split
    · decide
    · cases net with
      | sendOk =>
        show ("SUCCESS: Email titled " ++ squote ++ subject ++ squote ++
          " sent to " ++ recipient ++ "." : String) ≠ ""
        exact append_ne_empty _ _ (append_ne_empty _ _ (append_ne_empty _ _
          (append_ne_empty _ _ (append_ne_empty _ _ (by decide)))))
      | authReject =>
        show ("ERROR: SMTP Authentication failed. Check username and password." : String) ≠ ""
        decide
      | transportFail msg =>
        show ("ERROR: Failed to send email via SMTP. Details: " ++ msg : String) ≠ ""
        exact append_ne_empty _ _ (by decide)

lemma generate_draft_status (st : AgentState) (raw : String) :
    (generate_draft st raw).status = st.status := by
  rcases hsp : pySplit1 raw "\nBODY:" with _ | ⟨a, b⟩ <;> simp [generate_draft, hsp]

lemma generate_draft_review_feedback (st : AgentState) (raw : String) :
    (generate_draft st raw).review_feedback = st.review_feedback := by
  rcases hsp : pySplit1 raw "\nBODY:" with _ | ⟨a, b⟩ <;> simp [generate_draft, hsp]

lemma generate_draft_recipient (st : AgentState) (raw : String) :
    (generate_draft st raw).recipient = st.recipient := by
  rcases hsp : pySplit1 raw "\nBODY:" with _ | ⟨a, b⟩ <;> simp [generate_draft, hsp]

lemma generate_draft_log_nodes (st : AgentState) (raw : String) :
    (generate_draft st raw).logs.map LogEntry.node =
      st.logs.map LogEntry.node ++ ["Draft_Creator"] := by
  rcases hsp : pySplit1 raw "\nBODY:" with _ | ⟨a, b⟩ <;>
    simp [generate_draft, hsp, log_step]

lemma review_and_decide_messages_getLast (st : AgentState) (resp : ModelResponse) :
    (review_and_decide st resp).messages.getLast? = some resp := by
  simp [review_and_decide, List.getLast?_concat]

lemma lastToolCalls_review (st : AgentState) (resp : ModelResponse) :
    lastToolCalls (review_and_decide st resp) = resp.tool_calls := by
  rw [lastToolCalls, review_and_decide_messages_getLast]

lemma route_next_step_review (st : AgentState) (resp : ModelResponse) :
    route_next_step (review_and_decide st resp) =
      Except.ok
        (if resp.tool_calls.isEmpty = false then "tool_executor"
         else if pyContains resp.content "REVISION:" then "END_FEEDBACK"
         else "tool_executor") := by
  rw [route_next_step, review_and_decide_messages_getLast]
  simp only [review_and_decide]
  split_ifs <;> rfl

lemma run_email_agent_stop (goal recipient draft : String) (resp : ModelResponse)
    (ts : List ToolDef) (hnc : resp.tool_calls = [])
    (hm : pyContains resp.content "REVISION:" = true) :
    run_email_agent goal recipient draft resp ts =
      Except.ok (review_and_decide (generate_draft (initial_state goal recipient) draft) resp) := by
  unfold run_email_agent
  dsimp only
  rw [route_next_step_review]
  have hic : resp.tool_calls.isEmpty = true := List.isEmpty_iff.mpr hnc
  simp [hic, hm]

lemma run_email_agent_dispatch (goal recipient draft : String) (resp : ModelResponse)
    (ts : List ToolDef)
    (h : resp.tool_calls ≠ [] ∨ pyContains resp.content "REVISION:" = false) :
    run_email_agent goal recipient draft resp ts =
      tool_executor (review_and_decide (generate_draft (initial_state goal recipient) draft) resp) ts := by
  unfold run_email_agent
  dsimp only
  rw [route_next_step_review]
  rcases h with h | h
  · have hic : resp.tool_calls.isEmpty = false := by
      rcases hx : resp.tool_calls.isEmpty with _ | _
      · rfl
      · exact absurd (List.isEmpty_iff.mp hx) h
    simp [hic]
  · rcases hic : resp.tool_calls.isEmpty with _ | _ <;> simp [hic, h]

lemma tool_executor_forced_dynamic (st : AgentState) (u p : String) (net : SmtpBehavior)
    (h : lastToolCalls st = []) :
    tool_executor st (dynamic_tools u p net) =
      Except.ok { st with
        status := (send_email_func st.recipient st.subject st.body u p "smtp.gmail.com" 587 net).result
        logs := st.logs ++
          [log_step "Tool_Executor" "Forced_Success" "Tool call was synthesized and executed."] } := by
  rw [tool_executor, h]
  rfl

lemma tool_executor_explicit_dynamic (st : AgentState) (u p : String) (net : SmtpBehavior)
    (tc : ToolCall) (rest : List ToolCall) (r sj bd : String)
    (h : lastToolCalls st = tc :: rest)
    (hname : tc.name = "send_email")
    (h1 : lookupArg tc.args "recipient" = some r)
    (h2 : lookupArg tc.args "subject" = some sj)
    (h3 : lookupArg tc.args "body" = some bd) :
    tool_executor st (dynamic_tools u p net) =
      Except.ok { st with
        status := (send_email_func r sj bd u p "smtp.gmail.com" 587 net).result
        logs := st.logs ++
          [log_step "Tool_Executor" "Complete"
            ("Tool output: " ++ (send_email_func r sj bd u p "smtp.gmail.com" 587 net).result)] } := by
  rw [tool_executor, h]
  simp [dynamic_tools, dynamic_send_email_tool, hname, h1, h2, h3, List.find?]

lemma review_and_decide_status (st : AgentState) (resp : ModelResponse) :
    (review_and_decide st resp).status = st.status := rfl

lemma review_and_decide_review_feedback (st : AgentState) (resp : ModelResponse) :
    (review_and_decide st resp).review_feedback = resp.content := rfl

lemma review_and_decide_log_nodes (st : AgentState) (resp : ModelResponse) :
    (review_and_decide st resp).logs.map LogEntry.node =
      st.logs.map LogEntry.node ++ ["Decision_Maker"] := by
  simp [review_and_decide, log_step]

lemma pySplit1_eq_none (s sep : String) (h : pyContains s sep = false) :
    pySplit1 s sep = none := by
  unfold pyContains at h
  unfold pySplit1
  rcases hx : pySplit1List s.data sep.data with _ | p
  · rfl
  · rw [hx] at h
    simp at h

lemma generate_draft_error (st : AgentState) (raw : String)
    (h : pySplit1 raw "\nBODY:" = none) :
    generate_draft st raw =
      { st with
        subject := "ERROR: Drafting Failed"
        body := raw
        logs := st.logs ++
          [log_step "Draft_Creator" "Error"
            "LLM response did not follow strict SUBJECT:/BODY: format."]
        messages := st.messages ++
          [{ content := "Subject: " ++ "ERROR: Drafting Failed" ++ "\nBody: " ++ raw,
             tool_calls := [] }] } := by
  rw [generate_draft, h]

lemma tool_executor_ok_log_nodes (st : AgentState) (ts : List ToolDef) (s : AgentState)
    (h : tool_executor st ts = Except.ok s) :
    s.logs.map LogEntry.node = st.logs.map LogEntry.node ++ ["Tool_Executor"] := by
  rw [tool_executor] at h
  rcases hemp : ts.isEmpty with _ | _
  · simp only [hemp, Bool.false_eq_true, if_false] at h
    rcases hl : lastToolCalls st with _ | ⟨tc, rest⟩
    · simp only [hl] at h
      rcases hf : ts.find? (fun t => t.name == "send_email") with _ | tool
      · simp only [hf, Except.ok.injEq] at h
        subst h
        simp [log_step]
      · rcases hres : tool.run
            [("recipient", st.recipient), ("subject", st.subject), ("body", st.body)] with e | r
        · simp only [hf, hres, Except.ok.injEq] at h
          subst h
          simp [log_step]
        · simp only [hf, hres, Except.ok.injEq] at h
          subst h
          simp [log_step]
    · simp only [hl] at h
      rcases hf : ts.find? (fun t => t.name == tc.name) with _ | tool
      · simp only [hf] at h
        exact Except.noConfusion h
      · rcases hres : tool.run tc.args with e | r
        · simp only [hf, hres] at h
          exact Except.noConfusion h
        · simp only [hf, hres, Except.ok.injEq] at h
          subst h
          simp [log_step]
  · rw [hemp] at h
    simp at h

lemma tool_executor_forced_static (st : AgentState) (h : lastToolCalls st = []) :
    tool_executor st tools =
      Except.ok { st with
        status := "ERROR: Tool called without dynamic credentials. Check app.py setup."
        logs := st.logs ++
          [log_step "Tool_Executor" "Forced_Success" "Tool call was synthesized and executed."] } := by
  rw [tool_executor, h]
  rfl

lemma tool_executor_static_ok (st : AgentState) (s : AgentState)
    (h : tool_executor st tools = Except.ok s) :
    s.status = "ERROR: Tool called without dynamic credentials. Check app.py setup." := by
  rcases hl : lastToolCalls st with _ | ⟨tc, rest⟩
  · rw [tool_executor_forced_static st hl, Except.ok.injEq] at h
    subst h
    rfl
  · rcases hn : (tc.name == "send_email") with _ | _
    · have hne : tc.name ≠ "send_email" := by
        intro hc
        rw [hc] at hn
        simp at hn
      have hsymm : (("send_email" : String) == tc.name) = false := by
        rcases hx : (("send_email" : String) == tc.name) with _ | _
        · rfl
        · exact absurd (eq_of_beq hx).symm hne
      rw [tool_executor, hl] at h
      simp [tools, static_send_email_tool, List.find?, hsymm] at h
    · have hname : tc.name = "send_email" := eq_of_beq hn
      rcases h1 : lookupArg tc.args "recipient" with _ | r
      · rw [tool_executor, hl] at h
        simp [tools, static_send_email_tool, hname, h1, List.find?] at h
      · rcases h2 : lookupArg tc.args "subject" with _ | sj
        · rw [tool_executor, hl] at h
          simp [tools, static_send_email_tool, hname, h1, h2, List.find?] at h
        · rcases h3 : lookupArg tc.args "body" with _ | bd
          · rw [tool_executor, hl] at h
            simp [tools, static_send_email_tool, hname, h1, h2, h3, List.find?] at h
          · rw [tool_executor, hl] at h
            simp only [tools, static_send_email_tool, List.find?, List.isEmpty_cons,
              Bool.false_eq_true, if_false, hname, h1, h2, h3, send_email,
              beq_self_eq_true, Except.ok.injEq] at h
            subst h
            rfl

/-- Final state of one run, for concrete instantiations (the error case never
occurs at the inputs where this is used). -/
def run_result_state (goal recipient draft : String) (review : ModelResponse)
    (ts : List ToolDef) : AgentState :=
  match run_email_agent goal recipient draft review ts with
  | Except.ok s => s
  | Except.error _ => initial_state "" ""

lemma tool_executor_dynamic_ok (st : AgentState) (u p : String) (net : SmtpBehavior)
    (s : AgentState)
    (h : tool_executor st (dynamic_tools u p net) = Except.ok s) :
    s.status ≠ "" ∧
    s.review_feedback = st.review_feedback ∧
    s.logs.map LogEntry.node = st.logs.map LogEntry.node ++ ["Tool_Executor"] ∧
    s.logs.getLast?.map LogEntry.status =
      some (if (lastToolCalls st).isEmpty then "Forced_Success" else "Complete") := by
  rcases hl : lastToolCalls st with _ | ⟨tc, rest⟩
  · rw [tool_executor_forced_dynamic st u p net hl, Except.ok.injEq] at h
    subst h
    refine ⟨send_email_func_result_ne_empty _ _ _ _ _ _ _ _, rfl, ?_, ?_⟩
    · simp [log_step]
    · simp [hl, List.getLast?_concat, log_step]
  · rcases hn : (tc.name == "send_email") with _ | _
    · have hne : tc.name ≠ "send_email" := by
        intro hc
        rw [hc] at hn
        simp at hn
      have hsymm : (("send_email" : String) == tc.name) = false := by
        rcases hx : (("send_email" : String) == tc.name) with _ | _
        · rfl
        · exact absurd (eq_of_beq hx).symm hne
      rw [tool_executor, hl] at h
      simp [dynamic_tools, dynamic_send_email_tool, List.find?, hsymm] at h
    · have hname : tc.name = "send_email" := eq_of_beq hn
      rcases h1 : lookupArg tc.args "recipient" with _ | r
      · rw [tool_executor, hl] at h
        simp [dynamic_tools, dynamic_send_email_tool, hname, h1, List.find?] at h
      · rcases h2 : lookupArg tc.args "subject" with _ | sj
        · rw [tool_executor, hl] at h
          simp [dynamic_tools, dynamic_send_email_tool, hname, h1, h2, List.find?] at h
        · rcases h3 : lookupArg tc.args "body" with _ | bd
          · rw [tool_executor, hl] at h
            simp [dynamic_tools, dynamic_send_email_tool, hname, h1, h2, h3, List.find?] at h
          · rw [tool_executor_explicit_dynamic st u p net tc rest r sj bd hl hname h1 h2 h3,
              Except.ok.injEq] at h
            subst h
            refine ⟨send_email_func_result_ne_empty _ _ _ _ _ _ _ _, rfl, ?_, ?_⟩
            · simp [log_step]
            · simp [hl, List.getLast?_concat, log_step]

/-! ### Claim theorems -/

/-- C1: the route chosen after the Review step is a pure function of the pair
(response has an Action Request, response text contains the revision marker):
(true, anything) routes to Dispatch-explicit, (false, true) routes to
Stop-for-revision, (false, false) routes to Dispatch-synthesized, and the
policy always returns exactly one route (Except.ok) and never raises. -/
theorem decision_policy_truth_table (st : AgentState) (resp : ModelResponse) :
    decision_route (review_and_decide st resp) =
      Except.ok
        (if resp.tool_calls ≠ [] then Route.dispatchExplicit
         else if pyContains resp.content "REVISION:" then Route.stopForRevision
         else Route.dispatchSynthesized) := by
  rw [decision_route, route_next_step_review, lastToolCalls_review]
  rcases htc : resp.tool_calls with _ | ⟨a, b⟩
  · rcases hm : pyContains resp.content "REVISION:" with _ | _ <;> simp [hm]
  · simp

/-- C5: with both credentials non-empty and a recipient containing an at
sign, the Mail Dispatcher (send_email_func) returns exactly the SUCCESS
string on a successful send, a string beginning with the authentication
error text on authentication rejection, and the transport-failure string
with the exception message on any other transport failure; being a total
function into strings, it never raises past its boundary. -/
theorem mail_dispatcher_contract (recipient subject body username password host : String)
    (port : Nat)
    (hu : username ≠ "") (hp : password ≠ "")
    (hr : pyContains recipient "@" = true) :
    (send_email_func recipient subject body username password host port
        SmtpBehavior.sendOk).result =
      "SUCCESS: Email titled " ++ squote ++ subject ++ squote ++
        " sent to " ++ recipient ++ "."
    ∧ (send_email_func recipient subject body username password host port
        SmtpBehavior.authReject).result =
      "ERROR: SMTP Authentication failed" ++ ". Check username and password."
    ∧ ∀ msg, (send_email_func recipient subject body username password host port
        (SmtpBehavior.transportFail msg)).result =
      "ERROR: Failed to send email via SMTP. Details: " ++ msg := by
  have hcreds : ¬(username = "" ∨ password = "") := by
    rintro (h | h)
    exacts [hu h, hp h]
  have hrec : ¬(pyContains recipient "@" = false) := by simp [hr]
  refine ⟨?_, ?_, ?_⟩
  · unfold send_email_func
    rw [if_neg hcreds, if_neg hrec]
  · unfold send_email_func
    rw [if_neg hcreds, if_neg hrec]
    show ("ERROR: SMTP Authentication failed. Check username and password." : String) =
      "ERROR: SMTP Authentication failed" ++ ". Check username and password."
    decide
  · intro msg
    unfold send_email_func
    rw [if_neg hcreds, if_neg hrec]

/-- C5 witness at a concrete input. -/
theorem mail_dispatcher_contract_witness :
    (send_email_func "a@b.com" "Report" "Hello" "u" "p" "smtp.gmail.com" 587
        SmtpBehavior.sendOk).result =
      "SUCCESS: Email titled " ++ squote ++ "Report" ++ squote ++
        " sent to " ++ "a@b.com" ++ "."
    ∧ (send_email_func "a@b.com" "Report" "Hello" "u" "p" "smtp.gmail.com" 587
        SmtpBehavior.authReject).result =
      "ERROR: SMTP Authentication failed" ++ ". Check username and password."
    ∧ (send_email_func "a@b.com" "Report" "Hello" "u" "p" "smtp.gmail.com" 587
        (SmtpBehavior.transportFail "boom")).result =
      "ERROR: Failed to send email via SMTP. Details: " ++ "boom" :=
  ⟨(mail_dispatcher_contract "a@b.com" "Report" "Hello" "u" "p" "smtp.gmail.com" 587
      (by decide) (by decide) (by decide)).1,
   (mail_dispatcher_contract "a@b.com" "Report" "Hello" "u" "p" "smtp.gmail.com" 587
      (by decide) (by decide) (by decide)).2.1,
   (mail_dispatcher_contract "a@b.com" "Report" "Hello" "u" "p" "smtp.gmail.com" 587
      (by decide) (by decide) (by decide)).2.2 "boom"⟩

/-- C6 counterexample: at recipient "not-an-email" (with non-empty
credentials) the returned error string does NOT contain "invalid recipient"
as the claim states it (the code capitalizes "Invalid"), although no
connection is attempted. -/
theorem invalid_recipient_text_cex :
    pyContains (send_email_func "not-an-email" "S" "B" "u" "p" "smtp.gmail.com" 587
        SmtpBehavior.sendOk).result "invalid recipient" = false
    ∧ (send_email_func "not-an-email" "S" "B" "u" "p" "smtp.gmail.com" 587
        SmtpBehavior.sendOk).connectionAttempted = false := by
  decide

/-- C6 (amended): the precondition checks short-circuit before any network
activity: with an empty username or password the dispatcher returns the
credentials-missing error and attempts no connection, and with a recipient
containing no at sign it returns an error containing "Invalid recipient"
(capital I) and attempts no connection. -/
theorem dispatcher_short_circuit (recipient subject body username password host : String)
    (port : Nat) (net : SmtpBehavior) :
    ((username = "" ∨ password = "") →
      send_email_func recipient subject body username password host port net =
        { result := "ERROR: SMTP credentials missing. Cannot send email."
          connectionAttempted := false })
    ∧ (username ≠ "" → password ≠ "" → pyContains recipient "@" = false →
      (send_email_func recipient subject body username password host port
          net).connectionAttempted = false
      ∧ pyContains (send_email_func recipient subject body username password host port
          net).result "Invalid recipient" = true) := by
  constructor
  · intro h
    unfold send_email_func
    rw [if_pos h]
  · intro hu hp hr
    have hcreds : ¬(username = "" ∨ password = "") := by
      rintro (h | h)
      exacts [hu h, hp h]
    unfold send_email_func
    rw [if_neg hcreds, if_pos hr]
    exact ⟨rfl, by decide⟩

/-- C6 (amended) witness at concrete inputs, one per precondition. -/
theorem dispatcher_short_circuit_witness :
    send_email_func "a@b.com" "S" "B" "" "p" "smtp.gmail.com" 587 SmtpBehavior.sendOk =
      { result := "ERROR: SMTP credentials missing. Cannot send email."
        connectionAttempted := false }
    ∧ ((send_email_func "not-an-email" "S" "B" "u" "p" "smtp.gmail.com" 587
        SmtpBehavior.sendOk).connectionAttempted = false
      ∧ pyContains (send_email_func "not-an-email" "S" "B" "u" "p" "smtp.gmail.com" 587
        SmtpBehavior.sendOk).result "Invalid recipient" = true) :=
  ⟨(dispatcher_short_circuit "a@b.com" "S" "B" "" "p" "smtp.gmail.com" 587
      SmtpBehavior.sendOk).1 (Or.inl rfl),
   (dispatcher_short_circuit "not-an-email" "S" "B" "u" "p" "smtp.gmail.com" 587
      SmtpBehavior.sendOk).2 (by decide) (by decide) (by decide)⟩

/-- C7: when the Draft response lacks the required delimiter, the Draft step
does not abort: subject becomes exactly "ERROR: Drafting Failed", body is
the raw unparsed text, exactly one Log Entry with outcome Error is
appended, and the workflow still continues into the Review step (the run's
log then shows the Decision_Maker entry right after Draft_Creator). -/
theorem draft_parse_failure_absorbed (st : AgentState) (goal recipient raw : String)
    (resp : ModelResponse)
    (h : pyContains raw "\nBODY:" = false) :
    (generate_draft st raw).subject = "ERROR: Drafting Failed"
    ∧ (generate_draft st raw).body = raw
    ∧ (generate_draft st raw).logs = st.logs ++
        [log_step "Draft_Creator" "Error"
          "LLM response did not follow strict SUBJECT:/BODY: format."]
    ∧ (review_and_decide (generate_draft (initial_state goal recipient) raw) resp).logs.map
        LogEntry.node = ["Draft_Creator", "Decision_Maker"] := by
  have hsp := pySplit1_eq_none raw "\nBODY:" h
  refine ⟨?_, ?_, ?_, ?_⟩
  · rw [generate_draft_error st raw hsp]
  · rw [generate_draft_error st raw hsp]
  · rw [generate_draft_error st raw hsp]
  · rw [review_and_decide_log_nodes, generate_draft_log_nodes]
    rfl

/-- C7 witness at a concrete delimiter-free Draft response. -/
theorem draft_parse_failure_absorbed_witness :
    (generate_draft (initial_state "g" "a@b.com") "no delimiter here").subject =
      "ERROR: Drafting Failed"
    ∧ (generate_draft (initial_state "g" "a@b.com") "no delimiter here").body =
      "no delimiter here"
    ∧ (generate_draft (initial_state "g" "a@b.com") "no delimiter here").logs =
        (initial_state "g" "a@b.com").logs ++
        [log_step "Draft_Creator" "Error"
          "LLM response did not follow strict SUBJECT:/BODY: format."]
    ∧ (review_and_decide (generate_draft (initial_state "g" "a@b.com") "no delimiter here")
        { content := "ok", tool_calls := [] }).logs.map LogEntry.node =
      ["Draft_Creator", "Decision_Maker"] :=
  draft_parse_failure_absorbed (initial_state "g" "a@b.com") "g" "a@b.com"
    "no delimiter here" { content := "ok", tool_calls := [] } (by decide)

/-- C2 counterexample: a review response whose text contains the revision
marker but which also carries an explicit Action Request is dispatched
anyway (tool calls are checked first), so the status is non-empty while
review_feedback still contains REVISION:. -/
theorem marker_with_tool_call_dispatch_cex :
    (run_email_agent "g" "a@b.com" "SUBJECT: Hi\nBODY: Hello"
        { content := "REVISION: too casual"
          tool_calls :=
            [⟨"send_email", [("recipient", "a@b.com"), ("subject", "Hi"), ("body", "Hello")]⟩] }
        (dynamic_tools "u" "p" SmtpBehavior.sendOk)).map
      (fun s => (decide (s.status = ""), pyContains s.review_feedback "REVISION:",
        s.logs.map LogEntry.node))
      = Except.ok (false, true, ["Draft_Creator", "Decision_Maker", "Tool_Executor"]) := by
  rfl

/-- C2 (amended): for every completed run with the dynamic dispatcher tool,
status is non-empty iff a dispatch attempt was made (explicit or
synthesized), and a marker-bearing review response with NO Action Request
implies no dispatch attempt (status stays empty); a marker together with an
explicit Action Request still dispatches. -/
theorem status_dispatch_invariant (goal recipient draft : String) (resp : ModelResponse)
    (u p : String) (net : SmtpBehavior) (s : AgentState)
    (hrun : run_email_agent goal recipient draft resp (dynamic_tools u p net) =
      Except.ok s) :
    (s.status ≠ "" ↔
      (resp.tool_calls ≠ [] ∨ pyContains resp.content "REVISION:" = false))
    ∧ (resp.tool_calls = [] → pyContains resp.content "REVISION:" = true →
        s.status = "") := by
  by_cases hd : resp.tool_calls ≠ [] ∨ pyContains resp.content "REVISION:" = false
  · rw [run_email_agent_dispatch _ _ _ _ _ hd] at hrun
    have hfacts := tool_executor_dynamic_ok _ _ _ _ _ hrun
    refine ⟨⟨fun _ => hd, fun _ => hfacts.1⟩, ?_⟩
    intro hnc hm
    rcases hd with hd | hd
    · exact absurd hnc hd
    · rw [hm] at hd
      exact Bool.noConfusion hd
  · push_neg at hd
    obtain ⟨hnc, hm1⟩ := hd
    have hm : pyContains resp.content "REVISION:" = true := by
      rcases hx : pyContains resp.content "REVISION:" with _ | _
      · exact absurd hx hm1
      · rfl
    rw [run_email_agent_stop _ _ _ _ _ hnc hm, Except.ok.injEq] at hrun
    subst hrun
    have hstat :
        (review_and_decide (generate_draft (initial_state goal recipient) draft)
          resp).status = "" := by
      rw [review_and_decide_status, generate_draft_status]
      rfl
    refine ⟨⟨fun hne => absurd hstat hne, ?_⟩, fun _ _ => hstat⟩
    rintro (h | h)
    · exact absurd hnc h
    · rw [hm] at h
      exact absurd h (by decide)

/-- C2 (amended) witness: a concrete synthesized-dispatch run. -/
theorem status_dispatch_invariant_witness :
    ((run_result_state "g" "a@b.com" "SUBJECT: Hi\nBODY: Hello"
        { content := "Looks fine.", tool_calls := [] }
        (dynamic_tools "u" "p" SmtpBehavior.sendOk)).status ≠ ""
      ↔ (({ content := "Looks fine.", tool_calls := [] } : ModelResponse).tool_calls ≠ []
          ∨ pyContains "Looks fine." "REVISION:" = false))
    ∧ (({ content := "Looks fine.", tool_calls := [] } : ModelResponse).tool_calls = [] →
        pyContains "Looks fine." "REVISION:" = true →
        (run_result_state "g" "a@b.com" "SUBJECT: Hi\nBODY: Hello"
          { content := "Looks fine.", tool_calls := [] }
          (dynamic_tools "u" "p" SmtpBehavior.sendOk)).status = "") :=
  status_dispatch_invariant "g" "a@b.com" "SUBJECT: Hi\nBODY: Hello"
    { content := "Looks fine.", tool_calls := [] } "u" "p" SmtpBehavior.sendOk
    (run_result_state "g" "a@b.com" "SUBJECT: Hi\nBODY: Hello"
      { content := "Looks fine.", tool_calls := [] }
      (dynamic_tools "u" "p" SmtpBehavior.sendOk)) rfl

/-- C3 counterexample: at review text "REVISION: tone too casual" the run
stops with empty status, but review_feedback is the ENTIRE response text
(marker included), so its trimmed value is not "tone too casual". -/
theorem stop_path_feedback_cex :
    (run_email_agent "g" "a@b.com" "SUBJECT: Hi\nBODY: Hello"
        { content := "REVISION: tone too casual", tool_calls := [] }
        (dynamic_tools "u" "p" SmtpBehavior.sendOk)).map
      (fun s => (s.status, s.review_feedback,
        decide (pyStrip s.review_feedback = "tone too casual")))
      = Except.ok ("", "REVISION: tone too casual", false) := by
  rfl

/-- C3 (amended): on Stop-for-revision the run keeps the whole review
response text (marker included) in review_feedback and status stays empty;
the text following the marker is only recovered by the replace-then-strip
rendering step (as app.py does). -/
theorem stop_path_keeps_full_feedback (goal recipient draft : String)
    (resp : ModelResponse) (ts : List ToolDef)
    (hnc : resp.tool_calls = []) (hm : pyContains resp.content "REVISION:" = true)
    (s : AgentState)
    (hrun : run_email_agent goal recipient draft resp ts = Except.ok s) :
    s.review_feedback = resp.content
    ∧ s.status = ""
    ∧ pyStrip (pyReplace s.review_feedback "REVISION:" "") =
        pyStrip (pyReplace resp.content "REVISION:" "") := by
  rw [run_email_agent_stop _ _ _ _ _ hnc hm, Except.ok.injEq] at hrun
  subst hrun
  refine ⟨review_and_decide_review_feedback _ _, ?_, ?_⟩
  · rw [review_and_decide_status, generate_draft_status]
    rfl
  · rw [review_and_decide_review_feedback]

/-- C3 (amended) witness: scenario B, where the marker-stripped trimmed
feedback is "tone too casual". -/
theorem stop_path_keeps_full_feedback_witness :
    (run_result_state "g" "a@b.com" "SUBJECT: Hi\nBODY: Hello"
        { content := "REVISION: tone too casual", tool_calls := [] }
        (dynamic_tools "u" "p" SmtpBehavior.sendOk)).review_feedback =
      "REVISION: tone too casual"
    ∧ (run_result_state "g" "a@b.com" "SUBJECT: Hi\nBODY: Hello"
        { content := "REVISION: tone too casual", tool_calls := [] }
        (dynamic_tools "u" "p" SmtpBehavior.sendOk)).status = ""
    ∧ pyStrip (pyReplace (run_result_state "g" "a@b.com" "SUBJECT: Hi\nBODY: Hello"
        { content := "REVISION: tone too casual", tool_calls := [] }
        (dynamic_tools "u" "p" SmtpBehavior.sendOk)).review_feedback "REVISION:" "") =
      "tone too casual" :=
  have h := stop_path_keeps_full_feedback "g" "a@b.com" "SUBJECT: Hi\nBODY: Hello"
    { content := "REVISION: tone too casual", tool_calls := [] }
    (dynamic_tools "u" "p" SmtpBehavior.sendOk) rfl (by decide)
    (run_result_state "g" "a@b.com" "SUBJECT: Hi\nBODY: Hello"
      { content := "REVISION: tone too casual", tool_calls := [] }
      (dynamic_tools "u" "p" SmtpBehavior.sendOk)) rfl
  ⟨h.1, h.2.1, by decide⟩

/-- C4 counterexample: a synthesized dispatch whose Mail Dispatcher call
fails with an authentication error still logs outcome Forced_Success (not
Forced_Error): the Forced outcome is NOT chosen according to the
dispatcher's result, and the explicit path would log Complete, not
Success. -/
theorem forced_dispatch_log_cex :
    (run_email_agent "g" "a@b.com" "SUBJECT: Hi\nBODY: Hello"
        { content := "Looks fine.", tool_calls := [] }
        (dynamic_tools "u" "p" SmtpBehavior.authReject)).map
      (fun s => (s.status, s.logs.map (fun l => (l.node, l.status))))
      = Except.ok ("ERROR: SMTP Authentication failed. Check username and password.",
        [("Draft_Creator", "Success"), ("Decision_Maker", "Complete"),
         ("Tool_Executor", "Forced_Success")]) := by
  rfl

/-- C4 (amended): with the dynamic dispatcher tool, the dispatch step's log
entry has outcome Forced_Success whenever the arguments were synthesized
and the invocation returns (whatever the dispatcher's result string says;
Forced_Error is reserved for a raising invocation), and outcome Complete
when the arguments came from an explicit Action Request. -/
theorem dispatch_log_outcomes (goal recipient draft : String) (resp : ModelResponse)
    (u p : String) (net : SmtpBehavior) (s : AgentState)
    (hrun : run_email_agent goal recipient draft resp (dynamic_tools u p net) =
      Except.ok s) :
    (resp.tool_calls = [] → pyContains resp.content "REVISION:" = false →
      s.logs.getLast?.map LogEntry.status = some "Forced_Success")
    ∧ (resp.tool_calls ≠ [] →
      s.logs.getLast?.map LogEntry.status = some "Complete") := by
  constructor
  · intro hnc hm
    rw [run_email_agent_dispatch _ _ _ _ _ (Or.inr hm)] at hrun
    have hfacts := tool_executor_dynamic_ok _ _ _ _ _ hrun
    have h4 := hfacts.2.2.2
    rw [lastToolCalls_review, hnc] at h4
    simpa using h4
  · intro htc
    rw [run_email_agent_dispatch _ _ _ _ _ (Or.inl htc)] at hrun
    have hfacts := tool_executor_dynamic_ok _ _ _ _ _ hrun
    have h4 := hfacts.2.2.2
    rw [lastToolCalls_review] at h4
    have hic : resp.tool_calls.isEmpty = false := by
      rcases hx : resp.tool_calls.isEmpty with _ | _
      · rfl
      · exact absurd (List.isEmpty_iff.mp hx) htc
    rw [hic] at h4
    simpa using h4

/-- C4 (amended) witness: a successful synthesized dispatch logs
Forced_Success. -/
theorem dispatch_log_outcomes_witness :
    (run_result_state "g" "a@b.com" "SUBJECT: Hi\nBODY: Hello"
        { content := "Looks fine.", tool_calls := [] }
        (dynamic_tools "u" "p" SmtpBehavior.sendOk)).logs.getLast?.map LogEntry.status =
      some "Forced_Success" :=
  (dispatch_log_outcomes "g" "a@b.com" "SUBJECT: Hi\nBODY: Hello"
    { content := "Looks fine.", tool_calls := [] } "u" "p" SmtpBehavior.sendOk
    (run_result_state "g" "a@b.com" "SUBJECT: Hi\nBODY: Hello"
      { content := "Looks fine.", tool_calls := [] }
      (dynamic_tools "u" "p" SmtpBehavior.sendOk)) rfl).1
    rfl (by decide)

/-- C8: for every completed run the Run Log holds exactly one entry per
executed step, in execution order: exactly the two nodes Draft_Creator and
Decision_Maker when the run stops for revision, and exactly those plus
Tool_Executor when it dispatches. -/
theorem run_log_exactness (goal recipient draft : String) (resp : ModelResponse)
    (ts : List ToolDef) (s : AgentState)
    (hrun : run_email_agent goal recipient draft resp ts = Except.ok s) :
    (resp.tool_calls = [] → pyContains resp.content "REVISION:" = true →
      s.logs.map LogEntry.node = ["Draft_Creator", "Decision_Maker"])
    ∧ (resp.tool_calls ≠ [] ∨ pyContains resp.content "REVISION:" = false →
      s.logs.map LogEntry.node = ["Draft_Creator", "Decision_Maker", "Tool_Executor"]) := by
  constructor
  · intro hnc hm
    rw [run_email_agent_stop _ _ _ _ _ hnc hm, Except.ok.injEq] at hrun
    subst hrun
    rw [review_and_decide_log_nodes, generate_draft_log_nodes]
    rfl
  · intro hd
    rw [run_email_agent_dispatch _ _ _ _ _ hd] at hrun
    have hlog := tool_executor_ok_log_nodes _ _ _ hrun
    rw [hlog, review_and_decide_log_nodes, generate_draft_log_nodes]
    rfl

/-- C8 witness: a concrete stop run has exactly the two entries. -/
theorem run_log_exactness_witness :
    (run_result_state "g" "a@b.com" "SUBJECT: Hi\nBODY: Hello"
        { content := "REVISION: fix tone", tool_calls := [] }
        (dynamic_tools "u" "p" SmtpBehavior.sendOk)).logs.map LogEntry.node =
      ["Draft_Creator", "Decision_Maker"] :=
  (run_log_exactness "g" "a@b.com" "SUBJECT: Hi\nBODY: Hello"
    { content := "REVISION: fix tone", tool_calls := [] }
    (dynamic_tools "u" "p" SmtpBehavior.sendOk)
    (run_result_state "g" "a@b.com" "SUBJECT: Hi\nBODY: Hello"
      { content := "REVISION: fix tone", tool_calls := [] }
      (dynamic_tools "u" "p" SmtpBehavior.sendOk)) rfl).1 rfl (by decide)

/-- C9 counterexample: a run routed to the synthesized dispatch path keeps
review_feedback = "Looks fine." (the full review text), which is not
empty, refuting "for every run routed to a dispatch path, review_feedback
is empty". -/
theorem dispatch_nonempty_feedback_cex :
    (run_email_agent "g" "a@b.com" "SUBJECT: Hi\nBODY: Hello"
        { content := "Looks fine.", tool_calls := [] }
        (dynamic_tools "u" "p" SmtpBehavior.sendOk)).map
      (fun s => (s.review_feedback, s.logs.map LogEntry.node))
      = Except.ok ("Looks fine.", ["Draft_Creator", "Decision_Maker", "Tool_Executor"])
    ∧ ("Looks fine." : String) ≠ "" := by
  exact ⟨rfl, by decide⟩

/-- C9 (amended): review_feedback is empty until the Review step completes
(empty at creation and untouched by Draft), and after Review it holds the
full response text — which can be non-empty even on a run routed to a
dispatch path. -/
theorem review_feedback_lifecycle (goal recipient draft : String) (resp : ModelResponse)
    (u p : String) (net : SmtpBehavior) (s : AgentState)
    (hrun : run_email_agent goal recipient draft resp (dynamic_tools u p net) =
      Except.ok s) :
    (initial_state goal recipient).review_feedback = ""
    ∧ (generate_draft (initial_state goal recipient) draft).review_feedback = ""
    ∧ s.review_feedback = resp.content := by
  refine ⟨rfl, ?_, ?_⟩
  · rw [generate_draft_review_feedback]
    rfl
  · by_cases hd : resp.tool_calls ≠ [] ∨ pyContains resp.content "REVISION:" = false
    · rw [run_email_agent_dispatch _ _ _ _ _ hd] at hrun
      have hfacts := tool_executor_dynamic_ok _ _ _ _ _ hrun
      rw [hfacts.2.1, review_and_decide_review_feedback]
    · push_neg at hd
      obtain ⟨hnc, hm1⟩ := hd
      have hm : pyContains resp.content "REVISION:" = true := by
        rcases hx : pyContains resp.content "REVISION:" with _ | _
        · exact absurd hx hm1
        · rfl
      rw [run_email_agent_stop _ _ _ _ _ hnc hm, Except.ok.injEq] at hrun
      subst hrun
      rw [review_and_decide_review_feedback]

/-- C9 (amended) witness at a concrete dispatch run. -/
theorem review_feedback_lifecycle_witness :
    (initial_state "g" "a@b.com").review_feedback = ""
    ∧ (generate_draft (initial_state "g" "a@b.com") "SUBJECT: Hi\nBODY: Hello").review_feedback = ""
    ∧ (run_result_state "g" "a@b.com" "SUBJECT: Hi\nBODY: Hello"
        { content := "Looks fine.", tool_calls := [] }
        (dynamic_tools "u" "p" SmtpBehavior.sendOk)).review_feedback = "Looks fine." :=
  review_feedback_lifecycle "g" "a@b.com" "SUBJECT: Hi\nBODY: Hello"
    { content := "Looks fine.", tool_calls := [] } "u" "p" SmtpBehavior.sendOk
    (run_result_state "g" "a@b.com" "SUBJECT: Hi\nBODY: Hello"
      { content := "Looks fine.", tool_calls := [] }
      (dynamic_tools "u" "p" SmtpBehavior.sendOk)) rfl

/-- C10: the module-level send_email tool returns the fixed
no-dynamic-credentials error string for every input, so any completed run
that dispatches through the static module-level tools list records exactly
that error status and never reaches send_email_func (no send occurs). -/
theorem static_tool_constant_error (goal recipient draft subject body : String)
    (resp : ModelResponse) (s : AgentState)
    (hrun : run_email_agent goal recipient draft resp tools = Except.ok s)
    (hdisp : resp.tool_calls ≠ [] ∨ pyContains resp.content "REVISION:" = false) :
    send_email recipient subject body =
      "ERROR: Tool called without dynamic credentials. Check app.py setup."
    ∧ s.status = "ERROR: Tool called without dynamic credentials. Check app.py setup." := by
  rw [run_email_agent_dispatch _ _ _ _ _ hdisp] at hrun
  exact ⟨rfl, tool_executor_static_ok _ _ hrun⟩

/-- C10 witness: a concrete synthesized dispatch through the static tools
list records the constant error status. -/
theorem static_tool_constant_error_witness :
    send_email "a@b.com" "Hi" "Hello" =
      "ERROR: Tool called without dynamic credentials. Check app.py setup."
    ∧ (run_result_state "g" "a@b.com" "SUBJECT: Hi\nBODY: Hello"
        { content := "Looks fine.", tool_calls := [] } tools).status =
      "ERROR: Tool called without dynamic credentials. Check app.py setup." :=
  static_tool_constant_error "g" "a@b.com" "SUBJECT: Hi\nBODY: Hello" "Hi" "Hello"
    { content := "Looks fine.", tool_calls := [] }
    (run_result_state "g" "a@b.com" "SUBJECT: Hi\nBODY: Hello"
      { content := "Looks fine.", tool_calls := [] } tools) rfl (Or.inr (by decide))

end EmailAgent
